import Mathlib

/-!
Shallow embedding of the doc-processor service (apps/doc-processor) and
verification of its specification.

The extraction orchestrator (src/main.py), the OCR adapter
(src/processors/ocr.py), the face subsystem (src/processors/face.py) and
the configuration constants (src/config.py) are translated into executable
Lean definitions.  External capabilities (the PDF parser, the Tesseract OCR
engine, the face detector) are passed in as explicit function parameters, so
theorems quantify over every possible behaviour of those collaborators.
-/

namespace DocProcessor

/-- A raw byte payload, one natural number per byte. -/
abbrev Bytes := List Nat

/-! ### Configuration constants (src/config.py) -/

def MAX_FILE_SIZE : Nat := 10 * 1024 * 1024

def MAX_IMAGES_TO_OCR : Nat := 3

def MIN_IMAGE_SIZE_FOR_OCR : Nat := 10000

def OCR_IMAGE_MAX_DIMENSION : Nat := 1500

def NATIVE_TEXT_THRESHOLD : Nat := 500

/-! ### Python string primitives used by the code -/

/-- The whitespace characters removed by Python str.strip (ASCII range). -/
def pyIsSpace (c : Char) : Bool :=
  c == ' ' || c == '\t' || c == '\n' || c == '\r' || c == '\x0b' || c == '\x0c'

/-- Python str.strip: drop whitespace from both ends. -/
def pyStrip (s : String) : String :=
  String.mk (((s.data.dropWhile pyIsSpace).reverse.dropWhile pyIsSpace).reverse)

/-- Python str.lower (ASCII lowercasing; the extensions compared against
are all ASCII). -/
def pyLower (s : String) : String :=
  String.mk (s.data.map Char.toLower)

/-- Python str.endswith. -/
def pyEndsWith (s t : String) : Bool :=
  t.data.isSuffixOf s.data

/-! ### File-type dispatch (src/main.py, is_pdf / is_image) -/

/-- Check if file is a PDF based on extension (src/main.py, is_pdf). -/
def is_pdf (filename : String) : Bool :=
  pyEndsWith (pyLower filename) (".pdf")

/-- The tuple of supported image extensions in is_image. -/
def IMAGE_EXTENSIONS : List String :=
  [".png", ".jpg", ".jpeg", ".tiff", ".tif", ".bmp", ".webp"]

/-- Check if file is a supported image format (src/main.py, is_image). -/
def is_image (filename : String) : Bool :=
  IMAGE_EXTENSIONS.any (fun e => pyEndsWith (pyLower filename) e)

/-! ### Result data model (src/models/schemas.py, DocumentData) -/

/-- The method literal of DocumentData. -/
inductive Method where
  | native
  | ocr
  | nativeOcr
  deriving DecidableEq, Repr

/-- Extracted document data (schemas.py, DocumentData).  Confidence values
are modelled as rationals. -/
structure DocumentData where
  text : String
  page_count : Nat
  method : Method
  confidence : Option Rat
  deriving DecidableEq, Repr

/-- Outcome of process_document_bytes: a success payload, the error-dict
return value, or a propagated Python exception. -/
inductive POutcome where
  | ok (d : DocumentData)
  | errorDict (msg : String)
  | raised (msg : String)
  deriving DecidableEq, Repr

/-- The external collaborators the orchestrator calls.
A result of none from ocrImage models ocr_image raising an exception on
that image; none from ocrPdfPages models ocr_pdf_pages raising. -/
structure PdfEnv where
  extract : Bytes → String × Nat × List Bytes
  ocrImage : Bytes → Option (String × Rat)
  ocrPdfPages : Bytes → Option (String × Nat × Rat)

/-- The image-eligibility filter of process_document_bytes (src/main.py
lines 120-138): keep images of at least MIN_IMAGE_SIZE_FOR_OCR bytes, then
cap the list at MAX_IMAGES_TO_OCR entries. -/
def filter_images (embedded_images : List Bytes) : List Bytes :=
  (embedded_images.filter fun img =>
    decide (MIN_IMAGE_SIZE_FOR_OCR ≤ img.length)).take MAX_IMAGES_TO_OCR

/-- The per-image OCR loop (src/main.py lines 143-165): OCR each image,
skip images whose OCR raised, and keep only images whose extracted text is
non-empty after stripping. -/
def ocr_results (ocrImage : Bytes → Option (String × Rat)) (imgs : List Bytes) :
    List (String × Rat) :=
  imgs.filterMap fun img =>
    match ocrImage img with
    | none => none
    | some (t, c) => if pyStrip t ≠ "" then some (t, c) else none

/-- The separator inserted between native text and OCR text. -/
def IMAGE_SEPARATOR : String := "\n\n--- Text from embedded images ---\n\n"

/-- The orchestrator process_document_bytes (src/main.py lines 79-224).
The second component of the result records exactly the embedded images
handed to the OCR adapter inside the PDF path (the image-file path OCRs the
uploaded file itself, which is not an embedded image of a document). -/
def process_document_bytes (env : PdfEnv) (file_bytes : Bytes) (filename : String) :
    POutcome × List Bytes :=
  if file_bytes.length > MAX_FILE_SIZE then
    (.errorDict ("File too large. Maximum size is 10MB"), [])
  else if is_pdf filename then
    let extracted := env.extract file_bytes
    let native_text := extracted.1
    let page_count := extracted.2.1
    let embedded_images := extracted.2.2
    let native_text_stripped := pyStrip native_text
    if native_text_stripped.length > NATIVE_TEXT_THRESHOLD then
      (.ok ⟨native_text, page_count, .native, none⟩, [])
    else
      let images_to_ocr := filter_images embedded_images
      let results := ocr_results env.ocrImage images_to_ocr
      if results ≠ [] then
        let image_texts := results.map Prod.fst
        let image_confidences := results.map Prod.snd
        let base :=
          if native_text_stripped ≠ "" then native_text_stripped ++ IMAGE_SEPARATOR
          else native_text_stripped
        let combined_text := base ++ String.intercalate ("\n\n") image_texts
        let avg_confidence := image_confidences.sum / (image_confidences.length : Rat)
        (.ok ⟨combined_text, page_count, .nativeOcr, some avg_confidence⟩, images_to_ocr)
      else if native_text_stripped ≠ "" then
        (.ok ⟨native_text, page_count, .native, none⟩, images_to_ocr)
      else
        match env.ocrPdfPages file_bytes with
        | some (text, pc, confidence) =>
            (.ok ⟨text, pc, .ocr, some confidence⟩, images_to_ocr)
        | none => (.raised ("full-page OCR failed"), images_to_ocr)
  else if is_image filename then
    match env.ocrImage file_bytes with
    | some (text, confidence) => (.ok ⟨text, 1, .ocr, some confidence⟩, [])
    | none => (.raised ("OCR failed"), [])
  else
    (.errorDict ("Unsupported file type: " ++ filename), [])

/-! ### OCR adapter (src/processors/ocr.py, ocr_image) -/

/-- One row of pytesseract image_to_data output: a text field and a
confidence (-1 when no confidence is available for the row). -/
abbrev OcrRow := String × Rat

/-- The row filter of ocr_image (src/processors/ocr.py lines 104-109): keep
rows whose text is non-empty after stripping and whose confidence is not the
no-confidence marker -1.  These are exactly the detected text tokens. -/
def token_rows (rows : List OcrRow) : List OcrRow :=
  rows.filter fun r => decide (pyStrip r.1 ≠ "" ∧ r.2 ≠ -1)

/-- The OCR adapter ocr_image (src/processors/ocr.py lines 60-128).  The
tess argument is the Tesseract capability (image bytes to data rows) and
resizeFn models resize_image_for_ocr.  Confidences are converted from the
0-100 range to 0-1 by dividing by 100 and averaged; with no tokens the
result is the empty string with confidence 0. -/
def ocr_image (tess : Bytes → List OcrRow) (resizeFn : Bytes → Bytes)
    (image_bytes : Bytes) (resize : Bool) : String × Rat :=
  let resized := if resize then resizeFn image_bytes else image_bytes
  let rows := tess resized
  let kept := token_rows rows
  if kept = [] then ("", 0)
  else
    let combined_text := String.intercalate (" ") (kept.map Prod.fst)
    let confidences := kept.map fun r => r.2 / 100
    let avg_confidence := confidences.sum / (confidences.length : Rat)
    (combined_text, avg_confidence)

/-! ### Face subsystem (src/processors/face.py) -/

/-- The supported face model names (src/processors/face.py line 20). -/
def SUPPORTED_MODELS : List String := ["buffalo_l", "buffalo_s"]

def DEFAULT_MODEL : String := "buffalo_l"

/-- The model loader load_model (src/processors/face.py lines 24-58) acting
on the module state _model_name (with _fa loaded exactly when a name is
recorded).  Returns the call result paired with the post-call state; an
unsupported name raises ValueError before any state change (the source
message also lists the supported names; the model keeps its prefix). -/
def load_model (st : Option String) (model : String) : Except String Unit × Option String :=
  if model ∈ SUPPORTED_MODELS then
    if st = some model then (.ok (), st)
    else (.ok (), some model)
  else
    (.error ("Unsupported model: " ++ model), st)

/-- One face reported by the detector: a bounding box (x1, y1, x2, y2)
with rational coordinates (the detector produces floating-point boxes), a
detection score and the normalized embedding vector. -/
structure Face where
  bbox : Rat × Rat × Rat × Rat
  det_score : Rat
  normed_embedding : List Rat
  deriving DecidableEq, Repr

/-- The numpy astype int cast on one coordinate: truncation toward zero
(Int.tdiv rounds toward zero, and a rational is num over a positive
denominator). -/
def astype_int (q : Rat) : Int :=
  q.num.tdiv (q.den : Int)

/-- The key function inside embed (src/processors/face.py lines 111-113):
the bounding-box coordinates are cast to int (truncated) before the width
and height are multiplied. -/
def _area (f : Face) : Int :=
  let x1 := astype_int f.bbox.1
  let y1 := astype_int f.bbox.2.1
  let x2 := astype_int f.bbox.2.2.1
  let y2 := astype_int f.bbox.2.2.2
  (x2 - x1) * (y2 - y1)

/-- Python max over a non-empty list with a key: left-to-right scan
replacing the current best only on a strictly larger key, so the first
maximal element wins. -/
def pyMaxBy (key : Face → Int) (x : Face) (xs : List Face) : Face :=
  xs.foldl (fun best y => if key best < key y then y else best) x

/-- The metadata dict built by embed: bbox and det_score are absent keys
(none) in the zero-face dict. -/
structure FaceMeta where
  faces : Nat
  bbox : Option (Rat × Rat × Rat × Rat)
  det_score : Option Rat
  cached : Bool
  deriving DecidableEq, Repr

/-- A cache key: the pair (image content, model name).  Modelled from the
spec: the face_cache module is not in the source tree; section 4.7
specifies a deterministic, collision-resistant hash of the image bytes
together with the model identifier, which the pair itself realizes
exactly. -/
abbrev CacheKey := String × String

/-- The embedding cache contents.  Modelled from the spec (section 4.7): a
content-addressed store mapping the key to an embedding plus metadata. -/
abbrev Cache := List (CacheKey × (List Rat × FaceMeta))

/-- Cache lookup, face_cache.cache_get.  Modelled from the spec (section
4.7): get returns the stored entry for a key or nothing. -/
def cache_get (c : Cache) (k : CacheKey) : Option (List Rat × FaceMeta) :=
  (c.find? fun e => decide (e.1 = k)).map Prod.snd

/-- Cache store, face_cache.cache_set.  Modelled from the spec (section
4.7): set stores an entry under the key. -/
def cache_set (c : Cache) (k : CacheKey) (v : List Rat × FaceMeta) : Cache :=
  (k, v) :: c

/-- The face module state: _model_name (with _fa loaded exactly when it is
set) and the embedding cache. -/
structure FaceState where
  model : Option String
  cache : Cache

/-- The body of embed after the model check (src/processors/face.py lines
95-128), for a loaded model mname: cache lookup when use_cache, else
detection, largest-face selection and optional cache store.  Returns the
optional embedding with its metadata, and the post-call cache. -/
def embedLoaded (det : String → List Face) (mname : String) (cache : Cache)
    (image_b64 : String) (use_cache : Bool) : (Option (List Rat) × FaceMeta) × Cache :=
  match (if use_cache then cache_get cache (image_b64, mname) else none) with
  | some (embedding, meta) => ((some embedding, { meta with cached := true }), cache)
  | none =>
    match det image_b64 with
    | [] => ((none, ⟨0, none, none, false⟩), cache)
    | f :: fs =>
      let best := pyMaxBy _area f fs
      let vec := best.normed_embedding
      let meta : FaceMeta :=
        ⟨(f :: fs).length, some best.bbox, some best.det_score, false⟩
      let cache2 :=
        if use_cache then cache_set cache (image_b64, mname) (vec, meta) else cache
      ((some vec, meta), cache2)

/-- Result of embed: the returned pair, or a raised RuntimeError. -/
inductive EmbedRes where
  | ok (vec : Option (List Rat)) (meta : FaceMeta)
  | raised (msg : String)
  deriving DecidableEq, Repr

/-- The embedder embed (src/processors/face.py lines 78-128): raises when
no model is loaded, otherwise runs embedLoaded.  Returns the result and the
post-call cache. -/
def embed (det : String → List Face) (st : FaceState) (image_b64 : String)
    (use_cache : Bool) : EmbedRes × Cache :=
  match st.model with
  | none => (.raised ("Face model not loaded. Call load_model first."), st.cache)
  | some mname =>
    let r := embedLoaded det mname st.cache image_b64 use_cache
    (.ok r.1.1 r.1.2, r.2)

/-- Dot product of two equal-length vectors, as np.dot computes it. -/
def dotList (a b : List Rat) : Rat :=
  (List.zipWith (· * ·) a b).sum

/-- Cosine distance (src/processors/face.py lines 131-139). -/
def cosine_distance (a b : List Rat) : Rat :=
  1 - dotList a b

/-- The metadata dict returned by compare: the failure dict carries the
error string plus the embed metadata of the failing side; the success dict
carries the metadata of both sides, the model name and the cache flags. -/
inductive CmpMeta where
  | fail (error : String) (m : FaceMeta)
  | metaOk (a b : FaceMeta) (model : Option String) (cache_used both_cached : Bool)
  deriving DecidableEq, Repr

/-- Result of compare: the optional distance with metadata, or a raised
RuntimeError. -/
inductive CompareRes where
  | ok (dist : Option Rat) (meta : CmpMeta)
  | raised (msg : String)
  deriving DecidableEq, Repr

/-- Face comparison, compare (src/processors/face.py lines 142-179): embed
both sides (the second with the cache left by the first), return a no-face
error naming the side that failed, else the cosine distance with the
combined metadata. -/
def compare (det : String → List Face) (st : FaceState) (a_b64 b_b64 : String)
    (use_cache : Bool) : CompareRes × Cache :=
  match st.model with
  | none => (.raised ("Face model not loaded. Call load_model first."), st.cache)
  | some mname =>
    let ra := embedLoaded det mname st.cache a_b64 use_cache
    match ra.1.1 with
    | none => (.ok none (.fail ("no face in A") ra.1.2), ra.2)
    | some ea =>
      let rb := embedLoaded det mname ra.2 b_b64 use_cache
      match rb.1.1 with
      | none => (.ok none (.fail ("no face in B") rb.1.2), rb.2)
      | some eb =>
        (.ok (some (cosine_distance ea eb))
          (.metaOk ra.1.2 rb.1.2 (some mname) use_cache
            (ra.1.2.cached && rb.1.2.cached)), rb.2)

/-! ### Claim statements formalized as propositions -/

/-- No eligible embedded image of the document yields non-empty text after
trimming (OCR failures count as yielding no text, as in the skip of the
code). -/
def NoUsableImageText (env : PdfEnv) (file_bytes : Bytes) : Prop :=
  ocr_results env.ocrImage (filter_images (env.extract file_bytes).2.2) = []

/-- The situation of step 6 of the cascade: an acceptable-size PDF below
the native-text threshold in which no eligible embedded image yields usable
text. -/
def FallbackCond (env : PdfEnv) (file_bytes : Bytes) (filename : String) : Prop :=
  ¬ file_bytes.length > MAX_FILE_SIZE ∧ is_pdf filename = true ∧
  (pyStrip (env.extract file_bytes).1).length ≤ NATIVE_TEXT_THRESHOLD ∧
  NoUsableImageText env file_bytes

/-- Documented option (a): return the original (possibly empty) native text
with method native and no confidence. -/
def TakesOptionA (env : PdfEnv) (file_bytes : Bytes) (filename : String) : Prop :=
  (process_document_bytes env file_bytes filename).1 =
    .ok ⟨(env.extract file_bytes).1, (env.extract file_bytes).2.1, Method.native, none⟩

/-- Documented option (b): fall back to full-page OCR, returning method
ocr. -/
def TakesOptionB (env : PdfEnv) (file_bytes : Bytes) (filename : String) : Prop :=
  ∃ d, (process_document_bytes env file_bytes filename).1 = .ok d ∧ d.method = Method.ocr

/-- The claim C1 as stated: one single option among (a) and (b) is taken on
every no-usable-image-text document. -/
def UniformNoTextFallback : Prop :=
  (∀ env file_bytes filename, FallbackCond env file_bytes filename →
    TakesOptionA env file_bytes filename) ∨
  (∀ env file_bytes filename, FallbackCond env file_bytes filename →
    TakesOptionB env file_bytes filename)

/-- The real (untruncated) bounding-box area, width times height, as the
claim C5 words it. -/
def bbox_area (f : Face) : Rat :=
  (f.bbox.2.2.1 - f.bbox.1) * (f.bbox.2.2.2 - f.bbox.2.1)

/-- The claim C5 as stated: on a cache miss with at least one detected
face, embed returns the face of maximal real bounding-box area, earlier
faces in detector order having strictly smaller real area on a tie, and its
metadata carries the bounding box and detection score of that face. -/
def SelectsLargestRealAreaFace : Prop :=
  ∀ (det : String → List Face) (mname : String) (cache : Cache) (image_b64 : String)
    (f : Face) (fs : List Face), det image_b64 = f :: fs →
    ∃ sel pre suf,
      embed det ⟨some mname, cache⟩ image_b64 false =
        (.ok (some sel.normed_embedding)
          ⟨(f :: fs).length, some sel.bbox, some sel.det_score, false⟩, cache) ∧
      f :: fs = pre ++ sel :: suf ∧
      (∀ g ∈ f :: fs, bbox_area g ≤ bbox_area sel) ∧
      (∀ g ∈ pre, bbox_area g < bbox_area sel)

/-! ### Concrete environments used as verification inputs -/

set_option maxRecDepth 10000

/-- An inert environment: empty extraction, every OCR call raises. -/
def envW : PdfEnv := ⟨fun _ => ("", 0, []), fun _ => none, fun _ => none⟩

/-- A native text of 501 non-whitespace characters. -/
def bigText : String := String.mk (List.replicate 501 'a')

/-- Environment whose PDF extraction yields 501 characters of native text. -/
def envBig : PdfEnv := ⟨fun _ => (bigText, 1, []), fun _ => none, fun _ => none⟩

/-- Environment whose PDF extraction yields the short native text hi and no
embedded images. -/
def envHi : PdfEnv := ⟨fun _ => ("hi", 1, []), fun _ => none, fun _ => none⟩

/-- Environment of a scanned PDF: no native text, no embedded images,
full-page OCR yields OCRTEXT with confidence 1. -/
def envOcr : PdfEnv := ⟨fun _ => ("", 1, []), fun _ => none, fun _ => some ("OCRTEXT", 1, 1)⟩

/-- The Tesseract oracle of the C8 witness: two word rows and one empty
structural row. -/
def tessW : Bytes → List OcrRow := fun _ => [("hi", 80), ("", 95), ("there", 60)]

/-- The rational 10.5, built by its reduced numerator and denominator. -/
def qhalf : Rat := ⟨21, 2, by decide, by decide⟩

/-- A face with the fractional bounding box (0, 0, 10.5, 10.5): real area
110.25, truncated area 10 * 10 = 100. -/
def faceBig : Face := ⟨(0, 0, qhalf, qhalf), 1, [1]⟩

/-- A face with the integral bounding box (0, 0, 11, 10): real area 110,
truncated area also 110. -/
def faceWide : Face := ⟨(0, 0, 11, 10), 1, [2]⟩

/-- A detector reporting faceBig before faceWide. -/
def detC5 : String → List Face := fun _ => [faceBig, faceWide]

/-- The detector of the C6 witness: no face in image imgA, one face in
every other image. -/
def detAB : String → List Face := fun s => if s = "imgA" then [] else [faceWide]

/-! ### Helper lemmas -/

/-- The eligibility filter keeps a subsequence of the input (original order
preserved, no new elements). -/
lemma filter_images_sublist (l : List Bytes) : (filter_images l).Sublist l :=
  (List.take_sublist _ _).trans (List.filter_sublist _)

/-- The eligibility filter never keeps more than MAX_IMAGES_TO_OCR
images. -/
lemma filter_images_length_le (l : List Bytes) :
    (filter_images l).length ≤ MAX_IMAGES_TO_OCR := by
  simp [filter_images, List.length_take]

/-- Every image kept by the eligibility filter is at least
MIN_IMAGE_SIZE_FOR_OCR bytes. -/
lemma mem_filter_images_size (l : List Bytes) (img : Bytes) (h : img ∈ filter_images l) :
    MIN_IMAGE_SIZE_FOR_OCR ≤ img.length := by
  have h2 : img ∈ l.filter fun i => decide (MIN_IMAGE_SIZE_FOR_OCR ≤ i.length) :=
    List.take_subset _ _ h
  simpa using List.of_mem_filter h2

/-- The OCR-call trace of the orchestrator is either empty or exactly the
filtered embedded-image list of the document. -/
lemma process_trace_cases (env : PdfEnv) (file_bytes : Bytes) (filename : String) :
    (process_document_bytes env file_bytes filename).2 = [] ∨
    (process_document_bytes env file_bytes filename).2 =
      filter_images (env.extract file_bytes).2.2 := by
  simp only [process_document_bytes]
  repeat' split
  all_goals simp

lemma pyMaxBy_cons (key : Face → Int) (x y : Face) (ys : List Face) :
    pyMaxBy key x (y :: ys) = pyMaxBy key (if key x < key y then y else x) ys := rfl

/-- Python max with a key: the selected element splits the list so that
everything before it has a strictly smaller key (first-maximum tie-break)
and nothing anywhere has a larger key. -/
lemma pyMaxBy_spec (key : Face → Int) (x : Face) (xs : List Face) :
    ∃ pre suf, x :: xs = pre ++ pyMaxBy key x xs :: suf ∧
      (∀ g ∈ pre, key g < key (pyMaxBy key x xs)) ∧
      (∀ g ∈ x :: xs, key g ≤ key (pyMaxBy key x xs)) := by
  induction xs generalizing x with
  | nil =>
    refine ⟨[], [], by simp [pyMaxBy], by simp, ?_⟩
    intro g hg
    rw [List.mem_singleton] at hg
    subst hg
    simp [pyMaxBy]
  | cons y ys ih =>
    rw [pyMaxBy_cons]
    by_cases hxy : key x < key y
    · rw [if_pos hxy]
      obtain ⟨pre, suf, hdec, hpre, hmax⟩ := ih y
      have hyle : key y ≤ key (pyMaxBy key y ys) := hmax y (List.mem_cons_self y ys)
      refine ⟨x :: pre, suf, ?_, ?_, ?_⟩
      · rw [List.cons_append, ← hdec]
      · intro g hg
        rcases List.mem_cons.1 hg with rfl | hg2
        · exact lt_of_lt_of_le hxy hyle
        · exact hpre g hg2
      · intro g hg
        rcases List.mem_cons.1 hg with rfl | hg2
        · exact le_of_lt (lt_of_lt_of_le hxy hyle)
        · exact hmax g hg2
    · rw [if_neg hxy]
      have hyx : key y ≤ key x := le_of_not_lt hxy
      obtain ⟨pre, suf, hdec, hpre, hmax⟩ := ih x
      have hxle : key x ≤ key (pyMaxBy key x ys) := hmax x (List.mem_cons_self x ys)
      cases pre with
      | nil =>
        simp only [List.nil_append] at hdec
        obtain ⟨hsel, hsuf⟩ := List.cons.inj hdec
        refine ⟨[], y :: ys, ?_, by simp, ?_⟩
        · rw [List.nil_append, ← hsel]
        · intro g hg
          rcases List.mem_cons.1 hg with rfl | hg2
          · rw [← hsel]
          · rcases List.mem_cons.1 hg2 with rfl | hg3
            · exact le_trans hyx hxle
            · exact hmax g (List.mem_cons_of_mem x hg3)
      | cons p pre' =>
        rw [List.cons_append] at hdec
        obtain ⟨hp, hys⟩ := List.cons.inj hdec
        have hxlt : key x < key (pyMaxBy key x ys) := by
          have hh := hpre p (List.mem_cons_self p pre')
          rw [← hp] at hh
          exact hh
        refine ⟨x :: y :: pre', suf, ?_, ?_, ?_⟩
        · rw [List.cons_append, List.cons_append, ← hys]
        · intro g hg
          rcases List.mem_cons.1 hg with rfl | hg2
          · exact hxlt
          · rcases List.mem_cons.1 hg2 with rfl | hg3
            · exact lt_of_le_of_lt hyx hxlt
            · exact hpre g (List.mem_cons_of_mem p hg3)
        · intro g hg
          rcases List.mem_cons.1 hg with rfl | hg2
          · exact hxle
          · rcases List.mem_cons.1 hg2 with rfl | hg3
            · exact le_trans hyx hxle
            · exact hmax g (List.mem_cons_of_mem x hg3)

/-! ### Claim C1 -/

/-- Counterexample to C1: the orchestrator takes option (a) for the
document with short non-empty native text (envHi) and option (b) for the
document with empty native text (envOcr), so neither option is taken
uniformly. -/
theorem c1_counterexample : ¬ UniformNoTextFallback := by
  intro h
  rcases h with h | h
  · have hA : (process_document_bytes envOcr [] ("b.pdf")).1 =
        .ok ⟨(envOcr.extract []).1, (envOcr.extract []).2.1, Method.native, none⟩ :=
      h envOcr [] ("b.pdf") ⟨by decide, by decide, by decide, by rfl⟩
    exact absurd hA (by decide)
  · have hB : ∃ d, (process_document_bytes envHi [] ("a.pdf")).1 = .ok d ∧
        d.method = Method.ocr :=
      h envHi [] ("a.pdf") ⟨by decide, by decide, by decide, by rfl⟩
    obtain ⟨d, hd, hm⟩ := hB
    have hcode : (process_document_bytes envHi [] ("a.pdf")).1 =
        .ok ⟨"hi", 1, Method.native, none⟩ := by decide
    rw [hcode] at hd
    injection hd with hd2
    rw [← hd2] at hm
    exact absurd hm (by decide)

/-- Claim C1, amended: in the no-usable-image-text situation the
orchestrator takes option (a) exactly when the stripped native text is
non-empty, and option (b) — full-page OCR, propagating its text, page
count and mean confidence — exactly when the stripped native text is
empty. -/
theorem c1_amended_fallback_split (env : PdfEnv) (file_bytes : Bytes) (filename : String)
    (h : FallbackCond env file_bytes filename) :
    (pyStrip (env.extract file_bytes).1 ≠ "" →
      (process_document_bytes env file_bytes filename).1 =
        .ok ⟨(env.extract file_bytes).1, (env.extract file_bytes).2.1, Method.native, none⟩) ∧
    (pyStrip (env.extract file_bytes).1 = "" →
      (process_document_bytes env file_bytes filename).1 =
        match env.ocrPdfPages file_bytes with
        | some (text, pc, confidence) => .ok ⟨text, pc, Method.ocr, some confidence⟩
        | none => .raised ("full-page OCR failed")) := by
  obtain ⟨hsize, hpdf, hth, hno⟩ := h
  rw [NoUsableImageText] at hno
  have hth2 : ¬ (pyStrip (env.extract file_bytes).1).length > NATIVE_TEXT_THRESHOLD :=
    Nat.not_lt.2 hth
  constructor
  · intro hne
    simp [process_document_bytes, hsize, hpdf, hth2, hno, hne]
  · intro hemp
    simp only [process_document_bytes, if_neg hsize]
    simp [hpdf, hth2, hno, hemp]
    cases hocr : env.ocrPdfPages file_bytes with
    | none => simp [hocr]
    | some v => simp [hocr]

/-- Witness for C1 (amended): the non-empty-native side on envHi and the
empty-native side on envOcr. -/
theorem c1_witness :
    (process_document_bytes envHi [] ("a.pdf")).1 =
      .ok ⟨"hi", 1, Method.native, none⟩ ∧
    (process_document_bytes envOcr [] ("b.pdf")).1 =
      .ok ⟨"OCRTEXT", 1, Method.ocr, some 1⟩ :=
  ⟨(c1_amended_fallback_split envHi [] ("a.pdf")
      ⟨by decide, by decide, by decide, by rfl⟩).1 (by decide),
    (c1_amended_fallback_split envOcr [] ("b.pdf")
      ⟨by decide, by decide, by decide, by rfl⟩).2 (by decide)⟩

/-! ### Claim C2 -/

/-- Claim C2: for every PDF whose stripped native text is longer than
NATIVE_TEXT_THRESHOLD, process_document_bytes succeeds with method native,
no confidence and the untrimmed native text, and no embedded image is
handed to the OCR adapter. -/
theorem c2_native_threshold_terminal (env : PdfEnv) (file_bytes : Bytes) (filename : String)
    (hsize : ¬ file_bytes.length > MAX_FILE_SIZE) (hpdf : is_pdf filename = true)
    (hnat : (pyStrip (env.extract file_bytes).1).length > NATIVE_TEXT_THRESHOLD) :
    process_document_bytes env file_bytes filename =
      (.ok ⟨(env.extract file_bytes).1, (env.extract file_bytes).2.1, Method.native, none⟩,
        []) := by
  simp [process_document_bytes, hsize, hpdf, hnat]

/-- Witness for C2 on a concrete 501-character one-page PDF. -/
theorem c2_witness :
    process_document_bytes envBig [] ("doc.pdf") =
      (.ok ⟨bigText, 1, Method.native, none⟩, []) :=
  c2_native_threshold_terminal envBig [] ("doc.pdf") (by decide) (by decide) (by decide)

/-! ### Claim C3 -/

/-- Claim C3: every successful result of process_document_bytes carries a
confidence exactly when its method is not native. -/
theorem c3_confidence_iff_not_native (env : PdfEnv) (file_bytes : Bytes) (filename : String)
    (d : DocumentData) (h : (process_document_bytes env file_bytes filename).1 = .ok d) :
    d.confidence ≠ none ↔ d.method ≠ Method.native := by
  simp only [process_document_bytes] at h
  repeat' split at h
  all_goals simp_all
  all_goals (obtain rfl := h; simp)

/-- Witness for C3 on a concrete successful native-method run. -/
theorem c3_witness :
    (⟨"hi", 1, Method.native, none⟩ : DocumentData).confidence ≠ none ↔
      (⟨"hi", 1, Method.native, none⟩ : DocumentData).method ≠ Method.native :=
  c3_confidence_iff_not_native envHi [] ("a.pdf") ⟨"hi", 1, Method.native, none⟩ (by decide)

/-! ### Claim C4 -/

/-- Claim C4: the eligibility filter drops exactly the images strictly
below the size threshold, truncates to the image cap and preserves order
(it is an order-preserving sublist, sound and, when the cap does not bite,
complete); consequently every image handed to the OCR adapter is at least
MIN_IMAGE_SIZE_FOR_OCR bytes and at most MAX_IMAGES_TO_OCR images are
OCR-ed per document. -/
theorem c4_image_filter_eligibility (l : List Bytes) (img : Bytes) (env : PdfEnv)
    (file_bytes : Bytes) (filename : String) :
    filter_images l =
      (l.filter fun i => decide (¬ i.length < MIN_IMAGE_SIZE_FOR_OCR)).take
        MAX_IMAGES_TO_OCR ∧
    (filter_images l).Sublist l ∧
    (filter_images l).length ≤ MAX_IMAGES_TO_OCR ∧
    (img ∈ filter_images l → MIN_IMAGE_SIZE_FOR_OCR ≤ img.length) ∧
    (l.length ≤ MAX_IMAGES_TO_OCR → img ∈ l → MIN_IMAGE_SIZE_FOR_OCR ≤ img.length →
      img ∈ filter_images l) ∧
    (img ∈ (process_document_bytes env file_bytes filename).2 →
      MIN_IMAGE_SIZE_FOR_OCR ≤ img.length) ∧
    (process_document_bytes env file_bytes filename).2.length ≤ MAX_IMAGES_TO_OCR := by
  have hspec : filter_images l =
      (l.filter fun i => decide (¬ i.length < MIN_IMAGE_SIZE_FOR_OCR)).take
        MAX_IMAGES_TO_OCR := by
    rw [filter_images, List.filter_congr]
    intro i _
    simp [Nat.not_lt]
  refine ⟨hspec, filter_images_sublist l, filter_images_length_le l,
    mem_filter_images_size l img, ?_, ?_, ?_⟩
  · intro hlen hmem hsize
    rw [filter_images]
    have hf : img ∈ l.filter fun i => decide (MIN_IMAGE_SIZE_FOR_OCR ≤ i.length) :=
      List.mem_filter.2 ⟨hmem, by simpa using hsize⟩
    have hflen : (l.filter fun i => decide (MIN_IMAGE_SIZE_FOR_OCR ≤ i.length)).length ≤
        MAX_IMAGES_TO_OCR :=
      le_trans (List.length_filter_le _ _) hlen
    rw [List.take_of_length_le hflen]
    exact hf
  · intro hmem
    rcases process_trace_cases env file_bytes filename with htr | htr
    · rw [htr] at hmem
      exact absurd hmem (List.not_mem_nil _)
    · rw [htr] at hmem
      exact mem_filter_images_size _ img hmem
  · rcases process_trace_cases env file_bytes filename with htr | htr
    · simp [htr]
    · rw [htr]
      exact filter_images_length_le _

/-- Witness for C4 on a concrete document: a 10000-byte and a 9999-byte
embedded image, of which only the former is OCR-ed. -/
theorem c4_witness :
    (List.replicate 10000 (0 : Nat) ∈
        filter_images [List.replicate 10000 (0 : Nat), List.replicate 9999 (0 : Nat)] →
      MIN_IMAGE_SIZE_FOR_OCR ≤ (List.replicate 10000 (0 : Nat)).length) ∧
    (filter_images [List.replicate 10000 (0 : Nat),
      List.replicate 9999 (0 : Nat)]).length ≤ MAX_IMAGES_TO_OCR := by
  have h := c4_image_filter_eligibility
    [List.replicate 10000 (0 : Nat), List.replicate 9999 (0 : Nat)]
    (List.replicate 10000 (0 : Nat)) envW [] ("a.pdf")
  exact ⟨h.2.2.2.1, h.2.2.1⟩

/-! ### Claim C5 -/

/-- Counterexample to C5: the code selects by the area of the
int-truncated bounding box, so with faces of real areas 110.25 and 110 but
truncated areas 100 and 110 it picks the second face, while the claim as
stated demands the first. -/
theorem c5_counterexample : ¬ SelectsLargestRealAreaFace := by
  intro h
  obtain ⟨sel, pre, suf, hembed, hdec, hmax, hpre⟩ :=
    h detC5 ("buffalo_l") [] ("img") faceBig [faceWide] rfl
  have harea : _area faceBig < _area faceWide := by decide
  have hcode : embed detC5 ⟨some ("buffalo_l"), []⟩ ("img") false =
      (.ok (some faceWide.normed_embedding)
        ⟨2, some faceWide.bbox, some faceWide.det_score, false⟩, []) := by
    simp [embed, embedLoaded, detC5, pyMaxBy, harea]
  rw [hcode] at hembed
  injection hembed with h1 h2
  injection h1 with hvec hmeta
  injection hmeta with hfaces hbbox2 hscore hcached
  injection hbbox2 with hbbox
  have hle : bbox_area faceBig ≤ bbox_area sel := hmax faceBig (List.mem_cons_self _ _)
  simp only [bbox_area] at hle
  rw [← hbbox] at hle
  simp only [faceBig, faceWide, qhalf, Rat.mk'_eq_divInt, Rat.divInt_eq_div] at hle
  norm_num at hle

/-- Claim C5, amended: embed selects the face whose bounding box has the
largest area after each coordinate is truncated to an integer (the
astype-int cast), ties in this truncated area broken by detector output
order, and the returned metadata carries the bounding box and detection
score of the selected face. -/
theorem c5_amended_selects_largest_truncated_area (det : String → List Face)
    (mname : String) (cache : Cache) (image_b64 : String) (f : Face) (fs : List Face)
    (hdet : det image_b64 = f :: fs) :
    ∃ sel pre suf,
      embed det ⟨some mname, cache⟩ image_b64 false =
        (.ok (some sel.normed_embedding)
          ⟨(f :: fs).length, some sel.bbox, some sel.det_score, false⟩, cache) ∧
      f :: fs = pre ++ sel :: suf ∧
      (∀ g ∈ f :: fs, _area g ≤ _area sel) ∧
      (∀ g ∈ pre, _area g < _area sel) := by
  obtain ⟨pre, suf, hdec, hpre, hmax⟩ := pyMaxBy_spec _area f fs
  refine ⟨pyMaxBy _area f fs, pre, suf, ?_, hdec, hmax, hpre⟩
  simp [embed, embedLoaded, hdet]

/-- Witness for C5 (amended) on the concrete two-face detector. -/
theorem c5_witness :
    ∃ sel pre suf,
      embed detC5 ⟨some ("buffalo_l"), []⟩ ("img") false =
        (.ok (some sel.normed_embedding)
          ⟨([faceBig, faceWide] : List Face).length, some sel.bbox, some sel.det_score,
            false⟩, []) ∧
      [faceBig, faceWide] = pre ++ sel :: suf ∧
      (∀ g ∈ [faceBig, faceWide], _area g ≤ _area sel) ∧
      (∀ g ∈ pre, _area g < _area sel) :=
  c5_amended_selects_largest_truncated_area detC5 ("buffalo_l") [] ("img") faceBig
    [faceWide] rfl

/-! ### Claim C6 -/

/-- Claim C6: with a loaded model, compare returns a none distance carrying
the error tag naming the failing side whenever the embedding step of that
side yields no face, and it returns a numeric distance exactly when both
sides yield a face. -/
theorem c6_compare_identifies_failing_side (det : String → List Face) (mname : String)
    (cache : Cache) (a_b64 b_b64 : String) (use_cache : Bool) :
    (∀ ma : FaceMeta, (embedLoaded det mname cache a_b64 use_cache).1 = (none, ma) →
      compare det ⟨some mname, cache⟩ a_b64 b_b64 use_cache =
        (.ok none (.fail ("no face in A") ma),
          (embedLoaded det mname cache a_b64 use_cache).2)) ∧
    (∀ ea ma, (embedLoaded det mname cache a_b64 use_cache).1 = (some ea, ma) →
      (∀ mb, (embedLoaded det mname (embedLoaded det mname cache a_b64 use_cache).2 b_b64
          use_cache).1 = (none, mb) →
        compare det ⟨some mname, cache⟩ a_b64 b_b64 use_cache =
          (.ok none (.fail ("no face in B") mb),
            (embedLoaded det mname (embedLoaded det mname cache a_b64 use_cache).2 b_b64
              use_cache).2)) ∧
      (∀ eb mb, (embedLoaded det mname (embedLoaded det mname cache a_b64 use_cache).2 b_b64
          use_cache).1 = (some eb, mb) →
        compare det ⟨some mname, cache⟩ a_b64 b_b64 use_cache =
          (.ok (some (cosine_distance ea eb))
            (.metaOk ma mb (some mname) use_cache (ma.cached && mb.cached)),
            (embedLoaded det mname (embedLoaded det mname cache a_b64 use_cache).2 b_b64
              use_cache).2))) ∧
    ((∃ dst meta, (compare det ⟨some mname, cache⟩ a_b64 b_b64 use_cache).1 =
        .ok (some dst) meta) ↔
      ((embedLoaded det mname cache a_b64 use_cache).1.1 ≠ none ∧
        (embedLoaded det mname (embedLoaded det mname cache a_b64 use_cache).2 b_b64
          use_cache).1.1 ≠ none)) := by
  rcases hra : embedLoaded det mname cache a_b64 use_cache with ⟨⟨oa, ma0⟩, c1⟩
  rcases hrb : embedLoaded det mname c1 b_b64 use_cache with ⟨⟨ob, mb0⟩, c2⟩
  refine ⟨?_, ?_, ?_⟩
  · intro ma hma
    simp only [hra] at hma
    obtain ⟨rfl, rfl⟩ := Prod.mk.inj hma
    simp [compare, hra]
  · intro ea ma hma
    simp only [hra] at hma
    obtain ⟨rfl, rfl⟩ := Prod.mk.inj hma
    constructor
    · intro mb hmb
      simp only [hra, hrb] at hmb ⊢
      obtain ⟨rfl, rfl⟩ := Prod.mk.inj hmb
      simp [compare, hra, hrb]
    · intro eb mb hmb
      simp only [hra, hrb] at hmb ⊢
      obtain ⟨rfl, rfl⟩ := Prod.mk.inj hmb
      simp [compare, hra, hrb]
  · cases oa with
    | none => simp [compare, hra]
    | some ea =>
      cases ob with
      | none => simp [compare, hra, hrb]
      | some eb => simp [compare, hra, hrb]

/-- Witness for C6: comparing a no-face image (side A) against a one-face
image yields a none distance with the error tag naming side A. -/
theorem c6_witness :
    compare detAB ⟨some ("buffalo_l"), []⟩ ("imgA") ("imgB") false =
      (.ok none (.fail ("no face in A") ⟨0, none, none, false⟩), []) :=
  (c6_compare_identifies_failing_side detAB ("buffalo_l") [] ("imgA") ("imgB") false).1
    ⟨0, none, none, false⟩ (by decide)

/-! ### Claim C7 -/

/-- Claim C7: for every unsupported model name and every starting model
state, load_model fails with the Unsupported-model ValueError and leaves
the model state exactly as it was before the call. -/
theorem c7_load_model_unsupported_keeps_state (st : Option String) (model : String)
    (h : model ∉ SUPPORTED_MODELS) :
    load_model st model = (.error ("Unsupported model: " ++ model), st) := by
  simp [load_model, h]

/-- Witness for C7 at the unsupported name unknown-model with the buffalo_l
model loaded. -/
theorem c7_witness :
    load_model (some ("buffalo_l")) ("unknown-model") =
      (.error ("Unsupported model: " ++ "unknown-model"), some ("buffalo_l")) :=
  c7_load_model_unsupported_keeps_state (some ("buffalo_l")) ("unknown-model") (by decide)

/-! ### Claim C8 -/

/-- Claim C8: the confidence of the OCR adapter is the arithmetic mean of
the per-token confidences reported by the capability (the rows with
non-empty stripped text and an available confidence, rescaled from 0-100 to
0-1), and with no detected tokens the result is the empty string with
confidence 0. -/
theorem c8_ocr_image_mean_confidence (tess : Bytes → List OcrRow) (resizeFn : Bytes → Bytes)
    (image_bytes : Bytes) (resize : Bool) :
    (token_rows (tess (if resize then resizeFn image_bytes else image_bytes)) = [] →
      ocr_image tess resizeFn image_bytes resize = ("", 0)) ∧
    (∀ toks, token_rows (tess (if resize then resizeFn image_bytes else image_bytes)) = toks →
      toks ≠ [] →
      ocr_image tess resizeFn image_bytes resize =
        (String.intercalate (" ") (toks.map Prod.fst),
          ((toks.map fun r => r.2 / 100).sum) / ((toks.length : Nat) : Rat))) := by
  constructor
  · intro h
    simp [ocr_image, h]
  · intro toks htoks hne
    simp [ocr_image, htoks, hne]

/-- Witness for C8: mean of 0.8 and 0.6 is 0.7; the structural row does not
contribute. -/
theorem c8_witness :
    ocr_image tessW (fun b => b) [] true = ("hi there", 7 / 10) := by
  have h := (c8_ocr_image_mean_confidence tessW (fun b => b) [] true).2
    [("hi", 80), ("there", 60)] (by decide) (by decide)
  rw [h]
  refine Prod.ext (by decide) ?_
  norm_num

/-! ### Claim C9 -/

/-- Claim C9: embed with use_cache false leaves the cache exactly as it
was, its returned value does not depend on the cache contents (no cache
read), and any returned metadata reports cached false. -/
theorem c9_embed_nocache_frame (det : String → List Face) (st : FaceState)
    (image_b64 : String) :
    (embed det st image_b64 false).2 = st.cache ∧
    (∀ c2 : Cache, (embed det ⟨st.model, c2⟩ image_b64 false).1 =
      (embed det st image_b64 false).1) ∧
    (∀ v meta, (embed det st image_b64 false).1 = .ok v meta → meta.cached = false) := by
  obtain ⟨m, c⟩ := st
  cases m with
  | none => simp [embed]
  | some mname =>
    refine ⟨?_, ?_, ?_⟩
    · cases hd : det image_b64 <;> simp [embed, embedLoaded, hd]
    · intro c2
      cases hd : det image_b64 <;> simp [embed, embedLoaded, hd]
    · intro v meta h
      cases hd : det image_b64 <;>
        simp [embed, embedLoaded, hd] at h <;>
        simp [← h.2]

/-- Witness for C9 on a concrete detector, state and image. -/
theorem c9_witness :
    (embed (fun _ => []) ⟨some ("buffalo_l"), []⟩ ("img") false).2 = [] ∧
    ((embed (fun _ => []) ⟨some ("buffalo_l"), []⟩ ("img") false).1 =
      .ok none ⟨0, none, none, false⟩ → (⟨0, none, none, false⟩ : FaceMeta).cached = false) := by
  have h := c9_embed_nocache_frame (fun _ => []) ⟨some ("buffalo_l"), []⟩ ("img")
  exact ⟨h.1, h.2.2 none ⟨0, none, none, false⟩⟩

/-! ### Claim C10 -/

/-- Claim C10: file-type dispatch is case-insensitive (filenames that agree
after lowercasing select identical paths), and a filename matching neither
the PDF nor an image extension is rejected with the unsupported-file-type
error. -/
theorem c10_dispatch_case_insensitive :
    (∀ g h : String, pyLower g = pyLower h →
      is_pdf g = is_pdf h ∧ is_image g = is_image h) ∧
    (∀ (env : PdfEnv) (file_bytes : Bytes) (filename : String),
      ¬ file_bytes.length > MAX_FILE_SIZE →
      is_pdf filename = false → is_image filename = false →
      process_document_bytes env file_bytes filename =
        (.errorDict ("Unsupported file type: " ++ filename), [])) := by
  constructor
  · intro g h hlow
    exact ⟨by simp [is_pdf, hlow], by simp [is_image, hlow]⟩
  · intro env b fn hsize hpdf himg
    simp [process_document_bytes, hsize, hpdf, himg]

/-- Witness for C10: a mixed-case PDF name dispatches like its lowercase
form, and a txt upload is rejected. -/
theorem c10_witness :
    (is_pdf ("Scan.PDF") = is_pdf ("scan.pdf") ∧
      is_image ("Scan.PDF") = is_image ("scan.pdf")) ∧
    process_document_bytes envW [] ("notes.txt") =
      (.errorDict ("Unsupported file type: " ++ "notes.txt"), []) :=
  ⟨c10_dispatch_case_insensitive.1 ("Scan.PDF") ("scan.pdf") (by decide),
    c10_dispatch_case_insensitive.2 envW [] ("notes.txt") (by decide) (by decide)
      (by decide)⟩

end DocProcessor
